import Mathlib

/-!
Verification of the moomberg_alert feed pipeline against its specification.

The embedding models the two source files:
* `test_fetch.py` — the topic/country event filter (`TOPICS`, `filter_events`)
  and the uncached `fetch_events`;
* `bot.py` — configuration loading (`init_config`, `initialize_all`), the
  Telegram dispatch wrapper (`send_telegram_message`), the hourly scheduled
  handler (`hourly_task`) and the scheduler job registry (`init_scheduler`).

Components the spec describes but the repository does not implement under
src/ (the TTL `FeedCache` of spec section 4.1 and the `MessageChunker` of
spec section 4.4) are modelled from the spec's words; their doc comments say
so explicitly.

Python strings are modelled as Lean `String`; `str.lower()` as a
per-character `Char.toLower` map; the substring operator `in` as an
executable scan over the character lists.  Python dict access via `.get`
is modelled with `Option` fields.  Fallible effects (the Telegram transport,
`int()` conversion, environment lookup) are made explicit parameters or
`Except` results.
-/

namespace MoombergAlert

/-- Python `str.lower()`: lower-case every character. -/
def lower (s : String) : String := String.mk (s.data.map Char.toLower)

/-- One step of Python's substring operator: `pattern` occurs at the head. -/
def isSubList (pattern : List Char) : List Char → Bool
  | [] => pattern.isEmpty
  | b :: bs => pattern.isPrefixOf (b :: bs) || isSubList pattern bs

/-- Python `pattern in haystack` on strings. -/
def strIn (pattern haystack : String) : Bool :=
  isSubList pattern.data haystack.data

/-- An upstream calendar event as consumed by the pipeline.  The feed is
JSON; fields may be absent, which `dict.get` surfaces as `None`, hence the
`Option` types (spec section 3 lists `title, country, date, impact,
forecast, previous`). -/
structure Event where
  title : Option String := none
  country : Option String := none
  date : Option String := none
  impact : Option String := none
  forecast : Option String := none
  previous : Option String := none
deriving DecidableEq, Repr

/-- The fixed topic keyword set of `test_fetch.py` (lines 7-24). -/
def TOPICS : List String :=
  [ "Unemployment Rate",
    "Unemployment Claims",
    "ADP",
    "Non-Farm Employment Change",
    "GDP",
    "Consumer Price Index",
    "CPI",
    "ISM Services PMI",
    "ISM Manufacturing PMI",
    "JOLTS",
    "Producer Price Index",
    "PPI",
    "Retail Sales",
    "Flash Services PMI",
    "FOMC",
    "Fed Interest Rate Decision" ]

/-- `filter_events` of `test_fetch.py` (lines 31-48): skip events whose
`country` is not `"USD"`; otherwise lower-case the title (missing title
defaults to the empty string) and keep the event when some topic, lower
cased, occurs in it as a substring.  The loop appends kept events in input
order, which the recursion mirrors. -/
def filter_events : List Event → List Event
  | [] => []
  | event :: rest =>
    if event.country ≠ some "USD" then
      filter_events rest
    else if TOPICS.any (fun topic => strIn (lower topic) (lower (event.title.getD ""))) then
      event :: filter_events rest
    else
      filter_events rest

/-- The per-event keep condition of `filter_events`, extracted as a Boolean
predicate. -/
def keepEvent (event : Event) : Bool :=
  decide (event.country = some "USD") &&
    TOPICS.any (fun topic => strIn (lower topic) (lower (event.title.getD "")))

/-- The spec's filtering criterion, stated from its words (spec section
4.2): keep an event iff its country equals "USD" and its lower-cased title
contains at least one lower-cased entry of the fixed topic keyword set as a
(contiguous, unanchored) substring. -/
def SpecKeeps (event : Event) : Prop :=
  event.country = some "USD" ∧
    ∃ keyword ∈ TOPICS, ∃ pre suf,
      (lower (event.title.getD "")).data = pre ++ (lower keyword).data ++ suf

theorem isPrefixList_correct (pattern haystack : List Char) :
    pattern.isPrefixOf haystack = true ↔ ∃ suf, haystack = pattern ++ suf := by
  rw [List.isPrefixOf_iff_prefix]
  constructor
  · rintro ⟨suf, hsuf⟩
    exact ⟨suf, hsuf.symm⟩
  · rintro ⟨suf, hsuf⟩
    exact ⟨suf, hsuf.symm⟩

theorem isSubList_correct (pattern haystack : List Char) :
    isSubList pattern haystack = true ↔
      ∃ pre suf, haystack = pre ++ pattern ++ suf := by
  induction haystack with
  | nil =>
    constructor
    · intro h
      have hp : pattern = [] := by
        cases pattern with
        | nil => rfl
        | cons c cs => simp [isSubList, List.isEmpty] at h
      exact ⟨[], [], by simp [hp]⟩
    · rintro ⟨pre, suf, h⟩
      have h' := h.symm
      rw [List.append_eq_nil] at h'
      obtain ⟨hpre, hsuf⟩ := h'
      rw [List.append_eq_nil] at hpre
      simp [isSubList, hpre.2]
  | cons b bs ih =>
    constructor
    · intro h
      rw [isSubList, Bool.or_eq_true] at h
      rcases h with h | h
      · rcases (isPrefixList_correct _ _).mp h with ⟨suf, hsuf⟩
        exact ⟨[], suf, by simpa using hsuf⟩
      · rcases ih.mp h with ⟨pre, suf, hsuf⟩
        exact ⟨b :: pre, suf, by simp [hsuf]⟩
    · rintro ⟨pre, suf, hsuf⟩
      rw [isSubList, Bool.or_eq_true]
      cases pre with
      | nil =>
        left
        rw [isPrefixList_correct]
        exact ⟨suf, by simpa using hsuf⟩
      | cons c pre' =>
        right
        rw [List.cons_append, List.cons_append, List.cons.injEq] at hsuf
        exact ih.mpr ⟨pre', suf, hsuf.2⟩

theorem filter_events_eq_filter (events : List Event) :
    filter_events events = events.filter keepEvent := by
  induction events with
  | nil => rfl
  | cons event rest ih =>
    by_cases hc : event.country = some "USD"
    · by_cases hm :
        TOPICS.any (fun topic => strIn (lower topic) (lower (event.title.getD ""))) = true
      · simp [filter_events, keepEvent, List.filter_cons, hc, hm, ih]
      · simp [filter_events, keepEvent, List.filter_cons, hc, hm, ih]
    · simp [filter_events, keepEvent, List.filter_cons, hc, ih]

theorem keepEvent_iff_SpecKeeps (event : Event) :
    keepEvent event = true ↔ SpecKeeps event := by
  rw [keepEvent, SpecKeeps, Bool.and_eq_true, decide_eq_true_eq, List.any_eq_true]
  constructor
  · rintro ⟨hc, keyword, hk, hsub⟩
    exact ⟨hc, keyword, hk, (isSubList_correct _ _).mp hsub⟩
  · rintro ⟨hc, keyword, hk, pre, suf, hsub⟩
    exact ⟨hc, keyword, hk, (isSubList_correct _ _).mpr ⟨pre, suf, hsub⟩⟩

/-- C1: `filter_events` keeps an event if and only if its country field
equals "USD" and its lower-cased title contains at least one lower-cased
entry of the fixed topic keyword set as a substring. -/
theorem C1_filter_keeps_iff_usd_and_topic (events : List Event) (event : Event) :
    event ∈ filter_events events ↔ event ∈ events ∧ SpecKeeps event := by
  rw [filter_events_eq_filter, List.mem_filter, keepEvent_iff_SpecKeeps]

theorem count_filter_ite {α : Type} [DecidableEq α] (a : α) (l : List α)
    (p : α → Bool) :
    (l.filter p).count a = if p a = true then l.count a else 0 := by
  induction l with
  | nil => simp
  | cons b bs ih =>
    by_cases hab : b = a
    · subst hab
      by_cases hb : p b = true <;> simp [List.filter_cons, List.count_cons, hb, ih]
    · by_cases hb : p b = true <;>
        simp [List.filter_cons, List.count_cons, hb, hab, ih]

/-- C4: `filter_events` is a pure function whose output is an
order-preserving subsequence of its input, with no deduplication: every
occurrence of an event that satisfies the keep condition survives (the
occurrence count of each kept event is preserved exactly), and nothing else
appears. -/
theorem C4_filter_subsequence_no_dedup (events : List Event) :
    List.Sublist (filter_events events) events ∧
      ∀ event : Event, (filter_events events).count event =
        if keepEvent event = true then events.count event else 0 := by
  rw [filter_events_eq_filter]
  exact ⟨List.filter_sublist events, fun event => count_filter_ite event events keepEvent⟩

theorem no_topic_in_empty_title :
    TOPICS.any (fun topic => strIn (lower topic) (lower (Option.getD none ""))) = false := by
  decide

/-- C5: an event whose title field is absent is treated as having an empty
title: it never matches any keyword and is silently excluded from the
output of `filter_events`; the function is total, so no error is raised. -/
theorem C5_missing_title_excluded (event : Event) (events : List Event)
    (h : event.title = none) : event ∉ filter_events events := by
  rw [filter_events_eq_filter]
  intro hmem
  have hk := (List.mem_filter.mp hmem).2
  rw [keepEvent, h, no_topic_in_empty_title, Bool.and_false] at hk
  cases hk

/-- A concrete event lacking a title, for exercising `filter_events`. -/
def noTitleEvent : Event :=
  { country := some "USD", date := some "2025-01-07T08:30:00-05:00",
    impact := some "High" }

theorem C5_missing_title_excluded_witness :
    noTitleEvent.title = none ∧ noTitleEvent ∉ filter_events [noTitleEvent] :=
  ⟨rfl, C5_missing_title_excluded noTitleEvent [noTitleEvent] rfl⟩

/-- Modelled from the spec: src/ contains no FeedCache — `fetch_events` in
`test_fetch.py` performs a single uncached network fetch.  `CacheEntry` is
modelled from spec section 3: the cached event list and the instant of the
last successful fetch, in seconds. -/
structure CacheEntry where
  events : List Event
  fetched_at : Nat
deriving DecidableEq, Repr

/-- Cache time-to-live in seconds (spec section 4.1). -/
def TTL : Nat := 3600

/-- Outcome of one fetch attempt against the upstream feed.  `failure`
covers a network error, a non-2xx response and a malformed body alike; in
particular it is the only outcome available when no network access is
available. -/
inductive FetchOutcome where
  | success (events : List Event)
  | failure
deriving DecidableEq, Repr

/-- Result of one `get_events` call: the returned events, the cache state
after the call, and whether the call touched the network. -/
structure GetResult where
  result : List Event
  cache : CacheEntry
  networkAccessed : Bool
deriving DecidableEq, Repr

/-- Modelled from the spec: src/ contains no FeedCache; `get_events` follows
spec section 4.1.  If the cache is younger than `TTL` and non-empty, return
the cached events without network access.  Otherwise attempt one fetch: on
success replace the cache contents and stamp `fetched_at := now`; on any
failure return an empty sequence and leave the cache untouched. -/
def get_events (cache : CacheEntry) (now : Nat) (fetch : FetchOutcome) :
    GetResult :=
  if now - cache.fetched_at < TTL ∧ cache.events ≠ [] then
    { result := cache.events, cache := cache, networkAccessed := false }
  else
    match fetch with
    | .success events =>
      { result := events, cache := { events := events, fetched_at := now },
        networkAccessed := true }
    | .failure =>
      { result := [], cache := cache, networkAccessed := true }

/-- C2: with a cache younger than TTL and non-empty, two successive
`get_events` calls with no network access available (every fetch attempt
fails) return identical results and neither call touches the network. -/
theorem C2_fresh_cache_idempotent_no_network (cache : CacheEntry)
    (now1 now2 : Nat) (h1 : now1 - cache.fetched_at < TTL)
    (h2 : now2 - cache.fetched_at < TTL) (hne : cache.events ≠ []) :
    (get_events cache now1 .failure).result =
        (get_events (get_events cache now1 .failure).cache now2 .failure).result ∧
      (get_events cache now1 .failure).networkAccessed = false ∧
      (get_events (get_events cache now1 .failure).cache now2 .failure).networkAccessed
        = false := by
  have e1 : get_events cache now1 .failure =
      { result := cache.events, cache := cache, networkAccessed := false } := by
    rw [get_events, if_pos ⟨h1, hne⟩]
  have e2 : get_events cache now2 .failure =
      { result := cache.events, cache := cache, networkAccessed := false } := by
    rw [get_events, if_pos ⟨h2, hne⟩]
  rw [e1, e2]
  exact ⟨rfl, rfl, rfl⟩

/-- A concrete non-empty fresh cache for exercising `get_events`. -/
def freshCache : CacheEntry := { events := [noTitleEvent], fetched_at := 0 }

theorem C2_fresh_cache_idempotent_no_network_witness :
    ((10 : Nat) - freshCache.fetched_at < TTL ∧
        (20 : Nat) - freshCache.fetched_at < TTL ∧ freshCache.events ≠ []) ∧
      ((get_events freshCache 10 .failure).result =
          (get_events (get_events freshCache 10 .failure).cache 20 .failure).result ∧
        (get_events freshCache 10 .failure).networkAccessed = false ∧
        (get_events (get_events freshCache 10 .failure).cache 20 .failure).networkAccessed
          = false) :=
  ⟨⟨by decide, by decide, by decide⟩,
    C2_fresh_cache_idempotent_no_network freshCache 10 20 (by decide) (by decide)
      (by decide)⟩

/-- C3: when the cache is stale (at least TTL old) a fetch is attempted; if
that fetch fails, `get_events` returns the empty sequence (it does not
raise: the function is total) and leaves the stored events and `fetched_at`
unchanged. -/
theorem C3_failed_fetch_returns_empty_cache_unchanged (cache : CacheEntry)
    (now : Nat) (hstale : TTL ≤ now - cache.fetched_at) :
    (get_events cache now .failure).networkAccessed = true ∧
      (get_events cache now .failure).result = [] ∧
      (get_events cache now .failure).cache = cache := by
  have hnot : ¬(now - cache.fetched_at < TTL ∧ cache.events ≠ []) := by
    intro hcon
    exact absurd hcon.1 (Nat.not_lt.mpr hstale)
  rw [get_events, if_neg hnot]
  exact ⟨rfl, rfl, rfl⟩

theorem C3_failed_fetch_returns_empty_cache_unchanged_witness :
    TTL ≤ (4000 : Nat) - freshCache.fetched_at ∧
      ((get_events freshCache 4000 .failure).networkAccessed = true ∧
        (get_events freshCache 4000 .failure).result = [] ∧
        (get_events freshCache 4000 .failure).cache = freshCache) :=
  ⟨by decide, C3_failed_fetch_returns_empty_cache_unchanged freshCache 4000 (by decide)⟩

/-- Modelled from the spec: src/ contains no MessageChunker; `chunk` follows
spec section 4.4.  Concatenate the header and the formatted events with
blank-line separators; if the total is at most 4000 characters emit it as
one message, otherwise emit the header as its own message followed by one
message per formatted event. -/
def chunk (header : String) (formatted_events : List String) : List String :=
  if (header ++ "\n\n" ++ String.intercalate "\n\n" formatted_events).length ≤ 4000 then
    [header ++ "\n\n" ++ String.intercalate "\n\n" formatted_events]
  else
    header :: formatted_events

/-- C8: `chunk` emits exactly one message when the concatenation of the
header, a blank line and the events joined by blank lines is at most 4000
characters, and exactly `1 + N` messages (the header alone, then one
message per event) when it exceeds 4000 characters. -/
theorem C8_chunk_message_count (header : String) (formatted_events : List String) :
    (chunk header formatted_events).length =
      if (header ++ "\n\n" ++ String.intercalate "\n\n" formatted_events).length ≤ 4000
      then 1
      else 1 + formatted_events.length := by
  rw [chunk]
  split
  · rfl
  · simp [Nat.add_comm]

/-- Observable effects of the bot's handlers: a send through the Telegram
transport, a log record, or an access to the upstream feed.  `bot.py` never
touches the feed (it does not import `test_fetch`), but the constructor is
present so that absence of feed access is expressible. -/
inductive Action where
  | transportSend (chat_id : Int) (text : String)
  | logInfo (text : String)
  | logError (text : String)
  | fetchFeed
deriving DecidableEq, Repr

/-- `send_telegram_message` of `bot.py` (lines 59-68).  The transport call
`bot.send_message` may raise; its outcome is the `transport` parameter.
The Python body wraps everything in `try/except Exception`, so the result
is always `.ok`: `true` with an info log when the transport succeeded,
`false` with an error log otherwise.  The second component records the
emitted effects. -/
def send_telegram_message (chat_id : Int) (text : String)
    (transport : Except String Unit) : Except String (Bool × List Action) :=
  match transport with
  | .ok _ =>
    .ok (true, [.transportSend chat_id text,
      .logInfo ("✅ Message sent: " ++ text.take 50 ++ "...")])
  | .error e =>
    .ok (false, [.transportSend chat_id text,
      .logError ("❌ Failed to send message: " ++ e)])

/-- C10: `send_telegram_message` never raises to its caller: for every
transport outcome it returns (`.ok`) a Boolean that is `true` exactly when
the transport send succeeded; on an exception it logs the error and returns
`false`. -/
theorem C10_send_never_raises (chat_id : Int) (text : String)
    (transport : Except String Unit) (e : String) :
    (send_telegram_message chat_id text transport).isOk = true ∧
      send_telegram_message chat_id text (.ok ()) =
        .ok (true, [.transportSend chat_id text,
          .logInfo ("✅ Message sent: " ++ text.take 50 ++ "...")]) ∧
      send_telegram_message chat_id text (.error e) =
        .ok (false, [.transportSend chat_id text,
          .logError ("❌ Failed to send message: " ++ e)]) := by
  refine ⟨?_, rfl, rfl⟩
  cases transport <;> rfl

/-- The heartbeat text built by `hourly_task` (bot.py line 76), with the
formatted current time spliced in. -/
def hourly_message (time_str : String) : String :=
  "💓 *Hourly Update*\n⏰ " ++ time_str ++ "\n\n✅ System is running"

/-- `hourly_task` of `bot.py` (lines 70-84): log, build the heartbeat text
from the current time, and deliver it through `send_telegram_message` on a
fresh event loop.  `time_str` stands for `now.strftime(...)` and
`transport` for the transport outcome of the inner send. -/
def hourly_task (chat_id : Int) (time_str : String)
    (transport : Except String Unit) : Except String (List Action) := do
  let (_, sendActs) ←
    send_telegram_message chat_id (hourly_message time_str) transport
  pure (Action.logInfo "⏰ Running hourly task..." :: sendActs)

/-- The texts pushed through the transport within a list of effects. -/
def sentTexts (acts : List Action) : List String :=
  acts.filterMap (fun a =>
    match a with
    | .transportSend _ text => some text
    | _ => none)

/-- C6: every invocation of the hourly handler stays clear of the feed and
attempts exactly one transport send, whose text is the fixed-form heartbeat
containing the current timestamp as a substring. -/
theorem C6_hourly_heartbeat_no_feed (chat_id : Int) (time_str : String)
    (transport : Except String Unit) :
    ∃ acts, hourly_task chat_id time_str transport = .ok acts ∧
      sentTexts acts = [hourly_message time_str] ∧
      Action.fetchFeed ∉ acts ∧
      isSubList time_str.data (hourly_message time_str).data = true := by
  have hsub : isSubList time_str.data (hourly_message time_str).data = true := by
    rw [hourly_message, String.data_append, String.data_append]
    exact (isSubList_correct _ _).mpr
      ⟨"💓 *Hourly Update*\n⏰ ".data, "\n\n✅ System is running".data, rfl⟩
  cases transport with
  | ok u =>
    exact ⟨_, rfl, rfl, by simp, hsub⟩
  | error e =>
    exact ⟨_, rfl, rfl, by simp, hsub⟩

/-- The jobs `init_scheduler` of `bot.py` (lines 287-308) registers with the
background scheduler: exactly one cron job, running `hourly_task` at every
full hour. -/
def init_scheduler_jobs :
    List (Int → String → Except String Unit → Except String (List Action)) :=
  [hourly_task]

/-- C7: every handler registered with the scheduler returns normally on
every transport outcome — an exception arising during dispatch is caught
and logged inside the handler and never propagates out to terminate the
scheduler process. -/
theorem C7_handlers_never_propagate
    (handler : Int → String → Except String Unit → Except String (List Action))
    (hmem : handler ∈ init_scheduler_jobs) (chat_id : Int) (time_str : String)
    (transport : Except String Unit) (e : String) :
    (handler chat_id time_str transport).isOk = true ∧
      ∃ acts, handler chat_id time_str (.error e) = .ok acts ∧
        Action.logError ("❌ Failed to send message: " ++ e) ∈ acts := by
  simp only [init_scheduler_jobs, List.mem_singleton] at hmem
  subst hmem
  constructor
  · cases transport <;> rfl
  · exact ⟨_, rfl, by simp⟩

theorem C7_handlers_never_propagate_witness :
    hourly_task ∈ init_scheduler_jobs ∧
      ((hourly_task 1 "12:00 01.01.2025" (.error "network down")).isOk = true ∧
        ∃ acts, hourly_task 1 "12:00 01.01.2025" (.error "network down") = .ok acts ∧
          Action.logError ("❌ Failed to send message: " ++ "network down") ∈ acts) :=
  ⟨List.mem_singleton.mpr rfl,
    C7_handlers_never_propagate hourly_task (List.mem_singleton.mpr rfl) 1
      "12:00 01.01.2025" (.error "network down") "network down"⟩

/-- The process environment as `os.getenv` sees it: each variable either
set to a string or absent. -/
structure Env where
  TELEGRAM_BOT_TOKEN : Option String := none
  TELEGRAM_CHAT_ID : Option String := none
  RENDER_EXTERNAL_URL : Option String := none
deriving DecidableEq, Repr

/-- The global configuration `init_config` establishes on success. -/
structure Config where
  BOT_TOKEN : String
  CHAT_ID : Int
  WEBHOOK_URL : Option String
deriving DecidableEq, Repr

/-- `init_config` of `bot.py` (lines 32-57).  Python's `if not BOT_TOKEN`
is true both when the variable is unset and when it is the empty string,
which `Option.getD "" = ""` captures; `int(chat_id_str)` is modelled by
`String.toInt?`.  Each `raise ValueError` becomes an `.error`. -/
def init_config (env : Env) : Except String Config :=
  if env.TELEGRAM_BOT_TOKEN.getD "" = "" then
    .error "TELEGRAM_BOT_TOKEN is required"
  else if env.TELEGRAM_CHAT_ID.getD "" = "" then
    .error "TELEGRAM_CHAT_ID is required"
  else
    match (env.TELEGRAM_CHAT_ID.getD "").toInt? with
    | some n =>
      .ok { BOT_TOKEN := env.TELEGRAM_BOT_TOKEN.getD "", CHAT_ID := n,
            WEBHOOK_URL := env.RENDER_EXTERNAL_URL.map (fun u => u ++ "/webhook") }
    | none =>
      .error ("TELEGRAM_CHAT_ID must be integer, got: " ++ env.TELEGRAM_CHAT_ID.getD "")

/-- `initialize_all` of `bot.py` (lines 310-331): `init_config` first; its
exception aborts initialization.  The subsequent steps (`init_telegram`,
`init_scheduler`, `startup_task`) swallow their own failures and cannot
abort, so on a successful `init_config` initialization completes. -/
def initialize_all (env : Env) : Except String Config :=
  match init_config env with
  | .ok cfg => .ok cfg
  | .error e => .error e

/-- Module load of `bot.py` (lines 362-366): `initialize_all` runs when the
module is imported; on exception it is logged and re-raised, so the module
load — and with it the Gunicorn worker — fails. -/
def module_load (env : Env) : Except String Config :=
  match initialize_all env with
  | .ok cfg => .ok cfg
  | .error e => .error e

/-- The process begins serving HTTP exactly when module load succeeded. -/
def begins_serving (env : Env) : Bool := (module_load env).isOk

/-- C9: when the bot credential or the destination chat identifier is
absent from the environment at process start, startup fails with a fatal
error and the process does not begin serving. -/
theorem C9_missing_config_fatal (env : Env)
    (h : env.TELEGRAM_BOT_TOKEN = none ∨ env.TELEGRAM_CHAT_ID = none) :
    (∃ msg, module_load env = .error msg) ∧ begins_serving env = false := by
  have herr : ∃ msg, init_config env = .error msg := by
    rcases h with h | h
    · exact ⟨_, by rw [init_config, h]; rfl⟩
    · by_cases ht : env.TELEGRAM_BOT_TOKEN.getD "" = ""
      · exact ⟨_, by rw [init_config, if_pos ht]⟩
      · exact ⟨_, by rw [init_config, if_neg ht, h]; rfl⟩
  obtain ⟨msg, hmsg⟩ := herr
  have hload : module_load env = .error msg := by
    rw [module_load, initialize_all, hmsg]
  exact ⟨⟨msg, hload⟩, by rw [begins_serving, hload]; rfl⟩

/-- A concrete environment lacking the bot credential. -/
def tokenlessEnv : Env := { TELEGRAM_CHAT_ID := some "123" }

theorem C9_missing_config_fatal_witness :
    (tokenlessEnv.TELEGRAM_BOT_TOKEN = none ∨ tokenlessEnv.TELEGRAM_CHAT_ID = none) ∧
      ((∃ msg, module_load tokenlessEnv = .error msg) ∧
        begins_serving tokenlessEnv = false) :=
  ⟨Or.inl rfl, C9_missing_config_fatal tokenlessEnv (Or.inl rfl)⟩

end MoombergAlert
